import Mathlib

/-!
Verification of the captcha-protect middleware (Go) against its design
specification.  The Go code is shallowly embedded: Go maps become functions
to `Option`, the go-cache TTL store becomes a function from keys to
value/expiry pairs together with an explicit `now` parameter, `uint`
arithmetic is `Nat` reduced mod `2 ^ 64`, and filesystem/network effects are
made explicit parameters or oracle inputs.
-/

namespace CaptchaProtect

/-! ## The TTL cache (patrickmn/go-cache, as used by main.go)

An entry is a value paired with its expiry instant (`0` means: never
expires, matching go-cache storing expiration `0` when the duration is not
positive).  An entry is expired at time `now` iff its expiry is positive and
strictly less than `now` (go-cache: `now.UnixNano() > item.Expiration`).
Time is an abstract `Nat` tick count. -/

/-- A go-cache instance: key to (value, expiry). -/
def Cache (V : Type) := String → Option (V × Nat)

/-- go-cache expiry check: expired iff expiration positive and before now. -/
def entryExpired (e now : Nat) : Bool := 0 < e && e < now

/-- go-cache `Get`: a hit only when present and not expired. -/
def cacheGet {V : Type} (c : Cache V) (k : String) (now : Nat) : Option V :=
  match c k with
  | none => none
  | some (v, e) => if entryExpired e now then none else some v

/-- go-cache `Set`: store with expiry `now + ttl` when `ttl` is positive,
otherwise `0` (never expires).  `ttl` is the resolved default expiration
(the configured window) when the caller passes DefaultExpiration. -/
def cacheSet {V : Type} (c : Cache V) (k : String) (v : V) (ttl now : Nat) : Cache V :=
  fun k2 => if k2 = k then some (v, if 0 < ttl then now + ttl else 0) else c k2

/-- go-cache `Add`: errors when a live (non-expired) entry exists, else sets. -/
def cacheAdd {V : Type} (c : Cache V) (k : String) (v : V) (ttl now : Nat) :
    Except String (Cache V) :=
  match cacheGet c k now with
  | some _ => .error "item already exists"
  | none => .ok (cacheSet c k v ttl now)

/-- go-cache `IncrementUint`: errors when absent or expired; otherwise adds
to the stored `uint` (wrapping mod `2 ^ 64`) and keeps the original expiry. -/
def cacheIncrementUint (c : Cache Nat) (k : String) (n now : Nat) :
    Except String (Cache Nat) :=
  match c k with
  | none => .error "item not found"
  | some (v, e) =>
    if entryExpired e now then .error "item not found"
    else .ok (fun k2 => if k2 = k then some ((v + n) % 2 ^ 64, e) else c k2)

/-! ## Rate engine (main.go: registerRequest, trippedRateLimit) -/

/-- main.go `registerRequest`: try `Add(ip, 1, window)`; if the key already
holds a live entry, `IncrementUint(ip, 1)` instead.  (State-change
notification has no effect on the cache and is dropped here.) -/
def registerRequest (c : Cache Nat) (k : String) (window now : Nat) : Cache Nat :=
  match cacheAdd c k 1 window now with
  | .ok c2 => c2
  | .error _ =>
    match cacheIncrementUint c k 1 now with
    | .ok c2 => c2
    | .error _ => c

/-- main.go `trippedRateLimit`: absence is not-tripped; otherwise the stored
counter must be strictly greater than the configured rate limit. -/
def trippedRateLimit (c : Cache Nat) (k : String) (rateLimit now : Nat) : Bool :=
  match cacheGet c k now with
  | none => false
  | some v => decide (rateLimit < v)

/-- Fold `registerRequest` over a list of request instants. -/
def registerRequestN (c : Cache Nat) (k : String) (window : Nat) : List Nat → Cache Nat
  | [] => c
  | t :: ts => registerRequestN (registerRequest c k window t) k window ts

/-! ### Counting lemmas for the rate engine -/

/-- One registration on a key holding a live entry increments it in place,
keeping the expiry. -/
theorem registerRequest_hit (c : Cache Nat) (k : String) (window t v e : Nat)
    (hc : c k = some (v, e)) (ht : t ≤ e) :
    registerRequest c k window t =
      fun k2 => if k2 = k then some ((v + 1) % 2 ^ 64, e) else c k2 := by
  have hexp : entryExpired e t = false := by
    simp only [entryExpired, Bool.and_eq_false_iff, decide_eq_false_iff_not, not_lt]
    omega
  simp [registerRequest, cacheAdd, cacheGet, cacheIncrementUint, hc, hexp]

/-- Repeated registrations on a key holding a live entry, each within the
entry's lifetime, accumulate a wrapped count and keep the expiry. -/
theorem registerRequestN_hit (k : String) (window : Nat) :
    ∀ (ts : List Nat) (c : Cache Nat) (v e : Nat), c k = some (v, e) →
      v < 2 ^ 64 → (∀ t ∈ ts, t ≤ e) →
      (registerRequestN c k window ts) k = some ((v + ts.length) % 2 ^ 64, e) := by
  intro ts
  induction ts with
  | nil =>
    intro c v e hc hv _
    have hmod : (v + ([] : List Nat).length) % 2 ^ 64 = v := by
      simp only [List.length_nil, Nat.add_zero]
      omega
    rw [registerRequestN, hmod, hc]
  | cons t ts ih =>
    intro c v e hc hv hts
    rw [registerRequestN, registerRequest_hit c k window t v e hc (hts t (by simp))]
    have h2 := ih (fun k2 => if k2 = k then some ((v + 1) % 2 ^ 64, e) else c k2)
      ((v + 1) % 2 ^ 64) e (by simp) (Nat.mod_lt _ (by norm_num))
      (fun t2 ht2 => hts t2 (by simp [ht2]))
    rw [h2]
    simp only [List.length_cons]
    congr 2
    omega

/-- C1 core: from an empty slot, `n` registrations within the window leave
the counter at `n % 2 ^ 64` with expiry `t0 + window`. -/
theorem registerRequestN_fresh (c : Cache Nat) (k : String) (window t0 : Nat)
    (ts : List Nat) (h0 : c k = none) (hw : 0 < window)
    (hts : ∀ t ∈ ts, t ≤ t0 + window) :
    (registerRequestN c k window (t0 :: ts)) k =
      some ((1 + ts.length) % 2 ^ 64, t0 + window) := by
  rw [registerRequestN]
  have hfirst : registerRequest c k window t0 = cacheSet c k 1 window t0 := by
    simp [registerRequest, cacheAdd, cacheGet, h0]
  rw [hfirst]
  exact registerRequestN_hit k window ts _ 1 (t0 + window)
    (by simp [cacheSet, hw]) (by norm_num) hts

/-! ## Captcha verification (main.go: verifyChallengePage) -/

/-- Outcome of the outbound `http.PostForm` to the captcha provider, as
observed by `verifyChallengePage`: transport error, body that does not
decode as JSON, or a decoded `captchaResponse` with its `success` flag. -/
inductive ProviderResult where
  | netError
  | decodeError
  | decoded (success : Bool)
deriving DecidableEq

/-- The three caches of a `CaptchaProtect` instance. -/
structure Caches where
  rate : Cache Nat
  bots : Cache Bool
  verified : Cache Bool

/-- Observable result of `verifyChallengePage`: HTTP status code, the caches
after the call, the redirect target when one is issued, and whether the
provider endpoint was POSTed at all. -/
structure VerifyOutcome where
  status : Nat
  caches : Caches
  redirect : Option String
  contactedProvider : Bool

/-- net/url `ishex`. -/
def ishex (c : Char) : Bool :=
  (decide ('0' ≤ c) && decide (c ≤ '9')) || (decide ('a' ≤ c) && decide (c ≤ 'f')) ||
    (decide ('A' ≤ c) && decide (c ≤ 'F'))

/-- net/url `unhex`. -/
def unhex (c : Char) : Nat :=
  if '0' ≤ c ∧ c ≤ '9' then c.toNat - '0'.toNat
  else if 'a' ≤ c ∧ c ≤ 'f' then c.toNat - 'a'.toNat + 10
  else if 'A' ≤ c ∧ c ≤ 'F' then c.toNat - 'A'.toNat + 10
  else 0

/-- net/url `QueryUnescape` on the character list: a percent sign must be
followed by two hex digits (otherwise an EscapeError), and a plus decodes to
a space.  Bytes are modelled as characters, which coincides with Go on
ASCII data. -/
def queryUnescapeList : List Char → Except String (List Char)
  | [] => .ok []
  | '%' :: c1 :: c2 :: rest =>
    if ishex c1 && ishex c2 then
      match queryUnescapeList rest with
      | .ok l => .ok (Char.ofNat (16 * unhex c1 + unhex c2) :: l)
      | .error e => .error e
    else .error "invalid URL escape"
  | '%' :: _ => .error "invalid URL escape"
  | '+' :: rest =>
    match queryUnescapeList rest with
    | .ok l => .ok (' ' :: l)
    | .error e => .error e
  | c :: rest =>
    match queryUnescapeList rest with
    | .ok l => .ok (c :: l)
    | .error e => .error e

/-- net/url `QueryUnescape` on strings. -/
def queryUnescape (s : String) : Except String String :=
  match queryUnescapeList s.toList with
  | .ok l => .ok (String.mk l)
  | .error e => .error e

/-- main.go `verifyChallengePage`: an empty response token is rejected with
400 before the provider is contacted; a provider transport or decode
failure yields 500; a decoded non-success yields 403; on decoded success
the subnet is written to the verified cache and a 302 is issued to the
unescaped destination form value, which defaults to the escaped "%2F" when
empty and falls back to the root path when unescaping fails. -/
def verifyChallengePage (response destination : String) (provider : ProviderResult)
    (cs : Caches) (ip : String) (window now : Nat) : VerifyOutcome :=
  if response = "" then ⟨400, cs, none, false⟩
  else
    match provider with
    | .netError => ⟨500, cs, none, true⟩
    | .decodeError => ⟨500, cs, none, true⟩
    | .decoded false => ⟨403, cs, none, true⟩
    | .decoded true =>
      let cs2 : Caches := { cs with verified := cacheSet cs.verified ip true window now }
      let d := if destination = "" then "%2F" else destination
      let u := match queryUnescape d with
        | .ok u => u
        | .error _ => "/"
      ⟨302, cs2, some u, true⟩

/-- Setting a key and reading it back at the same instant always hits. -/
theorem cacheGet_set_self {V : Type} (c : Cache V) (k : String) (v : V) (ttl now : Nat) :
    cacheGet (cacheSet c k v ttl now) k now = some v := by
  simp only [cacheGet, cacheSet, if_pos rfl]
  have hexp : entryExpired (if 0 < ttl then now + ttl else 0) now = false := by
    simp only [entryExpired, Bool.and_eq_false_iff, decide_eq_false_iff_not, not_lt]
    split <;> omega
  simp [hexp]

/-- C1: for a subnet key with no existing rate-cache entry, after `n` calls
to `registerRequest` within the window, `trippedRateLimit` is false whenever
`n` is at most the configured `rateLimit` (including `n = 0`), and true when
`n = rateLimit + 1`: the comparison is strictly greater-than, not
greater-or-equal.  Here `n = ts.length + 1` registrations happen at instants
`t0 :: ts`, all within the window opened at `t0`, and `rateLimit` is a valid
`uint` with `rateLimit + 1` representable. -/
theorem claim_C1_rate_threshold (c0 : Cache Nat) (k : String)
    (window rateLimit t0 tq : Nat) (ts : List Nat)
    (h0 : c0 k = none) (hw : 0 < window)
    (hts : ∀ t ∈ ts, t ≤ t0 + window) (htq : tq ≤ t0 + window)
    (hrl : rateLimit + 1 < 2 ^ 64) :
    trippedRateLimit c0 k rateLimit tq = false ∧
    (ts.length + 1 ≤ rateLimit →
      trippedRateLimit (registerRequestN c0 k window (t0 :: ts)) k rateLimit tq = false) ∧
    (ts.length + 1 = rateLimit + 1 →
      trippedRateLimit (registerRequestN c0 k window (t0 :: ts)) k rateLimit tq = true) := by
  have hent := registerRequestN_fresh c0 k window t0 ts h0 hw hts
  have hexp : entryExpired (t0 + window) tq = false := by
    simp only [entryExpired, Bool.and_eq_false_iff, decide_eq_false_iff_not, not_lt]
    omega
  have hval : trippedRateLimit (registerRequestN c0 k window (t0 :: ts)) k rateLimit tq =
      decide (rateLimit < (1 + ts.length) % 2 ^ 64) := by
    simp [trippedRateLimit, cacheGet, hent, hexp]
  refine ⟨by simp [trippedRateLimit, cacheGet, h0], ?_, ?_⟩
  · intro hn
    rw [hval]
    simp only [decide_eq_false_iff_not, not_lt]
    omega
  · intro hn
    rw [hval]
    simp only [decide_eq_true_eq]
    omega

/-- C1 witness: rate limit 2, fresh key; 2 registrations do not trip, a 3rd
does. -/
theorem claim_C1_rate_threshold_witness :
    trippedRateLimit (registerRequestN (fun _ => none) "10.16.0.0" 86400 [0, 1])
      "10.16.0.0" 2 5 = false ∧
    trippedRateLimit (registerRequestN (fun _ => none) "10.16.0.0" 86400 [0, 1, 2])
      "10.16.0.0" 2 5 = true :=
  ⟨((claim_C1_rate_threshold (fun _ => none) "10.16.0.0" 86400 2 0 5 [1] rfl
      (by norm_num) (by simp) (by norm_num) (by norm_num)).2.1 (by norm_num)),
   ((claim_C1_rate_threshold (fun _ => none) "10.16.0.0" 86400 2 0 5 [1, 2] rfl
      (by norm_num) (by simp) (by norm_num) (by norm_num)).2.2 (by norm_num))⟩

/-- C2: `verifyChallengePage` marks the subnet verified and responds 302
exactly when the request carried a non-empty captcha response token and the
provider response decoded to success; every other provider outcome yields
500 or 403 and leaves all caches unchanged; on success the destination form
value is URL-unescaped for the redirect target, defaulting to the root path
when empty and falling back to the root path when unescaping fails. -/
theorem claim_C2_verify_transition (response destination : String)
    (provider : ProviderResult) (cs : Caches) (ip : String) (window now : Nat) :
    (((verifyChallengePage response destination provider cs ip window now).status = 302 ∧
        cacheGet (verifyChallengePage response destination provider cs ip window now).caches.verified
          ip now = some true) ↔
      (response ≠ "" ∧ provider = .decoded true)) ∧
    (response ≠ "" → provider ≠ .decoded true →
      (((verifyChallengePage response destination provider cs ip window now).status = 500 ∨
        (verifyChallengePage response destination provider cs ip window now).status = 403) ∧
       (verifyChallengePage response destination provider cs ip window now).caches = cs)) ∧
    (response ≠ "" → provider = .decoded true →
      ((destination = "" →
          (verifyChallengePage response destination provider cs ip window now).redirect =
            some "/") ∧
       (∀ e, queryUnescape destination = .error e →
          (verifyChallengePage response destination provider cs ip window now).redirect =
            some "/") ∧
       (∀ u, destination ≠ "" → queryUnescape destination = .ok u →
          (verifyChallengePage response destination provider cs ip window now).redirect =
            some u))) := by
  by_cases hr : response = ""
  · simp [verifyChallengePage, hr]
  · refine ⟨?_, ?_, ?_⟩
    · constructor
      · intro h
        rcases provider with _ | _ | b
        · simp [verifyChallengePage, hr] at h
        · simp [verifyChallengePage, hr] at h
        · cases b
          · simp [verifyChallengePage, hr] at h
          · exact ⟨hr, rfl⟩
      · rintro ⟨-, rfl⟩
        refine ⟨by simp [verifyChallengePage, hr], ?_⟩
        simp only [verifyChallengePage, if_neg hr]
        exact cacheGet_set_self cs.verified ip true window now
    · intro _ hp
      rcases provider with _ | _ | b
      · exact ⟨Or.inl (by simp [verifyChallengePage, hr]), by simp [verifyChallengePage, hr]⟩
      · exact ⟨Or.inl (by simp [verifyChallengePage, hr]), by simp [verifyChallengePage, hr]⟩
      · cases b
        · exact ⟨Or.inr (by simp [verifyChallengePage, hr]), by simp [verifyChallengePage, hr]⟩
        · exact absurd rfl hp
    · rintro _ rfl
      refine ⟨?_, ?_, ?_⟩
      · intro hd
        simp [verifyChallengePage, hr, hd]
        rfl
      · intro e he
        by_cases hd : destination = ""
        · subst hd
          simp [queryUnescape, queryUnescapeList] at he
        · simp [verifyChallengePage, hr, hd, he]
      · intro u hd hu
        simp [verifyChallengePage, hr, hd, hu]

/-- C2 witness: a non-empty token with provider success gives a 302, marks
the subnet verified, and redirects to the unescaped destination; a provider
non-success gives 403 and leaves the caches untouched. -/
theorem claim_C2_verify_transition_witness :
    ((verifyChallengePage "tok" "%2Fshop" (.decoded true)
        ⟨fun _ => none, fun _ => none, fun _ => none⟩ "1.2.0.0" 86400 10).status = 302 ∧
      cacheGet (verifyChallengePage "tok" "%2Fshop" (.decoded true)
        ⟨fun _ => none, fun _ => none, fun _ => none⟩ "1.2.0.0" 86400 10).caches.verified
        "1.2.0.0" 10 = some true) ∧
    (verifyChallengePage "tok" "%2Fshop" (.decoded true)
        ⟨fun _ => none, fun _ => none, fun _ => none⟩ "1.2.0.0" 86400 10).redirect =
      some "/shop" ∧
    (verifyChallengePage "tok" "%2Fshop" (.decoded false)
        ⟨fun _ => none, fun _ => none, fun _ => none⟩ "1.2.0.0" 86400 10).caches =
      ⟨fun _ => none, fun _ => none, fun _ => none⟩ :=
  ⟨(claim_C2_verify_transition "tok" "%2Fshop" (.decoded true)
      ⟨fun _ => none, fun _ => none, fun _ => none⟩ "1.2.0.0" 86400 10).1.mpr
      ⟨by decide, rfl⟩,
   ((claim_C2_verify_transition "tok" "%2Fshop" (.decoded true)
      ⟨fun _ => none, fun _ => none, fun _ => none⟩ "1.2.0.0" 86400 10).2.2
      (by decide) rfl).2.2 "/shop" (by decide) (by rfl),
   ((claim_C2_verify_transition "tok" "%2Fshop" (.decoded false)
      ⟨fun _ => none, fun _ => none, fun _ => none⟩ "1.2.0.0" 86400 10).2.1
      (by decide) (by simp)).2⟩

/-- C10: an empty POSTed captcha response token makes `verifyChallengePage`
return 400 immediately: the provider is never contacted, no cache (rate,
bot, or verified) is mutated, and no redirect is issued. -/
theorem claim_C10_empty_token_400 (destination : String) (provider : ProviderResult)
    (cs : Caches) (ip : String) (window now : Nat) :
    verifyChallengePage "" destination provider cs ip window now =
      ⟨400, cs, none, false⟩ := by
  simp [verifyChallengePage]

/-- C10 witness: concrete instance of the empty-token rejection. -/
theorem claim_C10_empty_token_400_witness :
    verifyChallengePage "" "%2Fshop" (.decoded true)
        ⟨fun _ => none, fun _ => none, fun _ => none⟩ "1.2.0.0" 86400 10 =
      ⟨400, ⟨fun _ => none, fun _ => none, fun _ => none⟩, none, false⟩ :=
  claim_C10_empty_token_400 "%2Fshop" (.decoded true)
    ⟨fun _ => none, fun _ => none, fun _ => none⟩ "1.2.0.0" 86400 10

/-! ## Persistent state reconciliation (main.go: reconcileStates) -/

/-- Modelled from the spec: the `state` package (internal/state) is not
under src/.  Per the spec, the persisted snapshot is a single JSON object
with keys Rate (string to unsigned), Bots and Verified (string to bool),
and Memory (string to unsigned, reserved and unused by the core logic).
Go maps are embedded as functions to `Option`; a nil map and an empty map
both read back as `none` everywhere, so the nil-map initialization in
`reconcileStates` is the identity here. -/
structure State where
  Rate : String → Option Nat
  Bots : String → Option Bool
  Verified : String → Option Bool
  Memory : String → Option Nat

/-- main.go `reconcileStates`: start from the memory state as base; for
each rate key of the file state, replace the memory value only when the
file value is strictly greater, and copy keys the memory lacks; for the
bots and verified maps, copy a file entry only when the key is absent from
memory.  The Go loops write each key at most once and independently, so
the merged maps are exactly these per-key functions. -/
def reconcileStates (fileState memoryState : State) : State where
  Rate := fun ip =>
    match memoryState.Rate ip, fileState.Rate ip with
    | some m, some f => some (if m < f then f else m)
    | some m, none => some m
    | none, f => f
  Bots := fun ip =>
    match memoryState.Bots ip with
    | some b => some b
    | none => fileState.Bots ip
  Verified := fun ip =>
    match memoryState.Verified ip with
    | some v => some v
    | none => fileState.Verified ip
  Memory := memoryState.Memory

/-- C3: `reconcileStates` keeps, per subnet, the larger of the two rate
counters (memory replaced only when the file value is strictly greater),
and for the bots and verified maps produces the union of keys with the
memory entry winning on conflict (a file entry is copied only when the key
is absent from memory). -/
theorem claim_C3_reconcile_merge (fileState memoryState : State) (ip : String) :
    (∀ m f, memoryState.Rate ip = some m → fileState.Rate ip = some f →
      (reconcileStates fileState memoryState).Rate ip = some (max m f)) ∧
    (∀ m, memoryState.Rate ip = some m → fileState.Rate ip = none →
      (reconcileStates fileState memoryState).Rate ip = some m) ∧
    (memoryState.Rate ip = none →
      (reconcileStates fileState memoryState).Rate ip = fileState.Rate ip) ∧
    (∀ b, memoryState.Bots ip = some b →
      (reconcileStates fileState memoryState).Bots ip = some b) ∧
    (memoryState.Bots ip = none →
      (reconcileStates fileState memoryState).Bots ip = fileState.Bots ip) ∧
    (∀ b, memoryState.Verified ip = some b →
      (reconcileStates fileState memoryState).Verified ip = some b) ∧
    (memoryState.Verified ip = none →
      (reconcileStates fileState memoryState).Verified ip = fileState.Verified ip) := by
  refine ⟨?_, ?_, ?_, ?_, ?_, ?_, ?_⟩
  · intro m f hm hf
    simp only [reconcileStates, hm, hf]
    congr 1
    split <;> omega
  · intro m hm hf
    simp [reconcileStates, hm, hf]
  · intro hm
    cases hf : fileState.Rate ip <;> simp [reconcileStates, hm, hf]
  · intro b hb
    simp [reconcileStates, hb]
  · intro hb
    simp [reconcileStates, hb]
  · intro b hb
    simp [reconcileStates, hb]
  · intro hb
    simp [reconcileStates, hb]

/-- C3 witness: reconciling disk rate 3 with memory rate 5 yields 5, and
disk rate 7 with memory rate 5 yields 7. -/
theorem claim_C3_reconcile_merge_witness :
    (reconcileStates
        ⟨fun k => if k = "ip" then some 3 else none, fun _ => none, fun _ => none, fun _ => none⟩
        ⟨fun k => if k = "ip" then some 5 else none, fun _ => none, fun _ => none,
          fun _ => none⟩).Rate "ip" = some 5 ∧
    (reconcileStates
        ⟨fun k => if k = "ip" then some 7 else none, fun _ => none, fun _ => none, fun _ => none⟩
        ⟨fun k => if k = "ip" then some 5 else none, fun _ => none, fun _ => none,
          fun _ => none⟩).Rate "ip" = some 7 :=
  ⟨by simpa using (claim_C3_reconcile_merge
      ⟨fun k => if k = "ip" then some 3 else none, fun _ => none, fun _ => none, fun _ => none⟩
      ⟨fun k => if k = "ip" then some 5 else none, fun _ => none, fun _ => none, fun _ => none⟩
      "ip").1 5 3 rfl rfl,
   by simpa using (claim_C3_reconcile_merge
      ⟨fun k => if k = "ip" then some 7 else none, fun _ => none, fun _ => none, fun _ => none⟩
      ⟨fun k => if k = "ip" then some 5 else none, fun _ => none, fun _ => none, fun _ => none⟩
      "ip").1 5 7 rfl rfl⟩

/-- A state whose bot map holds a single subnet memoized as a good bot. -/
def stateBotsTrue : State :=
  ⟨fun _ => none, fun k => if k = "10.0.0.0" then some true else none,
    fun _ => none, fun _ => none⟩

/-- A state whose bot map holds the same subnet memoized as not a bot. -/
def stateBotsFalse : State :=
  ⟨fun _ => none, fun k => if k = "10.0.0.0" then some false else none,
    fun _ => none, fun _ => none⟩

/-- A state with all maps empty. -/
def stateEmpty : State := ⟨fun _ => none, fun _ => none, fun _ => none, fun _ => none⟩

/-- C4 counterexample: when the two snapshots disagree on a shared bot key,
swapping the arguments of `reconcileStates` changes the bot map, so
reconciliation is not commutative for the union-based maps as claimed: the
memory (second) argument wins on conflict. -/
theorem claim_C4_commutativity_counterexample :
    ¬ ((reconcileStates stateBotsTrue stateBotsFalse).Bots =
         (reconcileStates stateBotsFalse stateBotsTrue).Bots ∧
       (reconcileStates stateBotsTrue stateBotsFalse).Verified =
         (reconcileStates stateBotsFalse stateBotsTrue).Verified) := by
  rintro ⟨hb, -⟩
  have h := congrFun hb "10.0.0.0"
  simp [reconcileStates, stateBotsTrue, stateBotsFalse] at h

/-- C4 amended: `reconcileStates` is commutative for the union-based maps
(bots and verified) whenever the two snapshots agree on every key present
in both; with conflicting values on a shared key the memory (second)
argument wins, so the results differ. -/
theorem claim_C4_union_commutative_on_agreement (A B : State)
    (hb : ∀ ip a b, A.Bots ip = some a → B.Bots ip = some b → a = b)
    (hv : ∀ ip a b, A.Verified ip = some a → B.Verified ip = some b → a = b) :
    (reconcileStates A B).Bots = (reconcileStates B A).Bots ∧
    (reconcileStates A B).Verified = (reconcileStates B A).Verified := by
  constructor
  · funext ip
    rcases ha : A.Bots ip with _ | a <;> rcases hbb : B.Bots ip with _ | b <;>
      simp [reconcileStates, ha, hbb]
    exact (hb ip a b ha hbb).symm
  · funext ip
    rcases ha : A.Verified ip with _ | a <;> rcases hbb : B.Verified ip with _ | b <;>
      simp [reconcileStates, ha, hbb]
    exact (hv ip a b ha hbb).symm

/-- C4 witness: with disjoint bot maps (and empty verified maps) the two
reconciliation orders agree. -/
theorem claim_C4_union_commutative_on_agreement_witness :
    (reconcileStates stateBotsTrue stateEmpty).Bots =
      (reconcileStates stateEmpty stateBotsTrue).Bots ∧
    (reconcileStates stateBotsTrue stateEmpty).Verified =
      (reconcileStates stateEmpty stateBotsTrue).Verified :=
  claim_C4_union_commutative_on_agreement stateBotsTrue stateEmpty
    (by intro ip a b _ hB; simp [stateEmpty] at hB)
    (by intro ip a b hA _; simp [stateBotsTrue] at hA)

/-! ## Construction-time validation (main.go: NewCaptchaProtect) -/

/-- Plugin configuration, restricted to the fields consulted by the fatal
construction-time checks of `NewCaptchaProtect` (the remaining fields,
such as the rate limit and window, never produce a construction error). -/
structure Config where
  ProtectRoutes : List String
  ExcludeRoutes : List String
  ProtectFileExtensions : List String
  ChallengeURL : String
  IPv4SubnetMask : Int
  IPv6SubnetMask : Int
  CaptchaProvider : String
  Mode : String
  ExemptIPs : List String

/-- The built-in exempt CIDR ranges prepended to the user-supplied list. -/
def builtinExemptIps : List String :=
  ["127.0.0.0/8", "10.0.0.0/8", "172.16.0.0/12", "192.168.0.0/16", "fc00::/8"]

/-- main.go `NewCaptchaProtect`, reduced to its fatal construction-time
checks in source order.  Library behaviour the embedding does not
reimplement is abstracted into oracles: `regexpCompiles` says whether
regexp.Compile accepts a pattern, `tmplOk` whether a challenge template
was obtained and parsed (from the configured file or the built-in
default), and `cidrParses` whether helper.ParseCIDR accepts a range (the
real parser accepts all five built-in ranges).  The result is the first
failing check's error, or unit when construction succeeds. -/
def newCaptchaProtectCheck (c : Config) (regexpCompiles : String → Bool)
    (tmplOk : Bool) (cidrParses : String → Bool) : Except String Unit :=
  if c.ProtectRoutes = [] ∧ c.Mode ≠ "suffix" then
    .error "you must protect at least one route with the protectRoutes config value. / will cover your entire site"
  else if c.Mode = "regex" ∧ (c.ProtectRoutes.any fun r => !regexpCompiles r) then
    .error "invalid regex in protectRoutes"
  else if c.Mode = "regex" ∧ (c.ExcludeRoutes.any fun r => !regexpCompiles r) then
    .error "invalid regex in excludeRoutes"
  else if c.Mode ≠ "regex" ∧ c.Mode ≠ "prefix" ∧ c.Mode ≠ "suffix" then
    .error "unknown mode"
  else if c.ChallengeURL = "/" then
    .error "your challenge URL can not be the entire site"
  else if !tmplOk then
    .error "unable to parse challenge template"
  else if (builtinExemptIps ++ c.ExemptIPs).any fun ip => !cidrParses ip then
    .error "error parsing cidr"
  else if c.IPv4SubnetMask < 8 ∨ 32 < c.IPv4SubnetMask then
    .error "invalid ipv4 mask"
  else if c.IPv6SubnetMask < 8 ∨ 128 < c.IPv6SubnetMask then
    .error "invalid ipv6 mask"
  else if c.CaptchaProvider ≠ "hcaptcha" ∧ c.CaptchaProvider ≠ "recaptcha" ∧
      c.CaptchaProvider ≠ "turnstile" then
    .error "invalid captcha provider"
  else .ok ()

/-- An otherwise-valid configuration in suffix mode with no protected
routes. -/
def suffixNoRoutesConfig : Config :=
  { ProtectRoutes := [], ExcludeRoutes := [], ProtectFileExtensions := [],
    ChallengeURL := "/challenge", IPv4SubnetMask := 16, IPv6SubnetMask := 64,
    CaptchaProvider := "turnstile", Mode := "suffix", ExemptIPs := [] }

/-- C5 counterexample: with mode "suffix" an empty protectRoutes list does
not fail construction, so the empty list is not fatal regardless of mode:
the check at main.go line 124 is skipped exactly when the mode is
"suffix". -/
theorem claim_C5_counterexample :
    newCaptchaProtectCheck suffixNoRoutesConfig (fun _ => true) true (fun _ => true) =
      .ok () := by
  rfl

/-- C5 amended: constructing the middleware with an empty protectRoutes
list is a fatal configuration error in every mode except "suffix":
`NewCaptchaProtect` returns the missing-routes error before any other
check. -/
theorem claim_C5_empty_routes_fatal (c : Config) (regexpCompiles : String → Bool)
    (tmplOk : Bool) (cidrParses : String → Bool)
    (h0 : c.ProtectRoutes = []) (hm : c.Mode ≠ "suffix") :
    newCaptchaProtectCheck c regexpCompiles tmplOk cidrParses =
      .error "you must protect at least one route with the protectRoutes config value. / will cover your entire site" := by
  simp [newCaptchaProtectCheck, h0, hm]

/-- C5 witness: prefix mode with no protected routes fails construction. -/
theorem claim_C5_empty_routes_fatal_witness :
    newCaptchaProtectCheck { suffixNoRoutesConfig with Mode := "prefix" }
        (fun _ => true) true (fun _ => true) =
      .error "you must protect at least one route with the protectRoutes config value. / will cover your entire site" :=
  claim_C5_empty_routes_fatal { suffixNoRoutesConfig with Mode := "prefix" }
    (fun _ => true) true (fun _ => true) rfl (by decide)

/-! ## Route matching (main.go: RouteIsProtectedPrefix) -/

/-- Scan for path/filepath Ext: walk the path from its end (the first
argument accumulates the characters already passed, the second is the
remaining reversed path); stop at a path separator with no extension, or
return the extension from the last dot of the final element. -/
def filepathExtRev (acc : List Char) : List Char → Option (List Char)
  | [] => none
  | c :: rest =>
    if c = '/' then none
    else if c = '.' then some ('.' :: acc)
    else filepathExtRev (c :: acc) rest

/-- path/filepath `Ext` on the character list: the suffix of the final
slash-separated element starting at its last dot (dot included), or empty
when there is none. -/
def filepathExtChars (path : List Char) : List Char :=
  match filepathExtRev [] path.reverse with
  | none => []
  | some l => l

/-- strings.HasPrefix on character lists. -/
def hasPrefixChars : List Char → List Char → Bool
  | _, [] => true
  | [], _ :: _ => false
  | c :: s, p :: ps => c = p && hasPrefixChars s ps

/-- strings.EqualFold restricted to ASCII data: case-insensitive equality
(the Go function applies Unicode simple folding, which agrees with ASCII
lowercasing on ASCII input). -/
def equalFoldCharsAscii (a b : List Char) : Bool :=
  a.map Char.toLower == b.map Char.toLower

/-- strings.TrimPrefix of the single leading dot, as main.go applies it to
the result of filepath.Ext. -/
def trimLeadingDotChars : List Char → List Char
  | '.' :: r => r
  | r => r

/-- One protect-route candidate of the labelled loop in main.go
`RouteIsProtectedPrefix`: the path starts with the route, no exclude route
is a prefix of the path (a match jumps to the next candidate via the
labelled continue), and either the path has no file extension or the
extension appears case-insensitively in the protected extension list. -/
def candidateProtectedPrefixMode (excludeRoutes exts : List String)
    (path route : String) : Bool :=
  hasPrefixChars path.toList route.toList &&
    !(excludeRoutes.any fun e => hasPrefixChars path.toList e.toList) &&
    (let ext := trimLeadingDotChars (filepathExtChars path.toList)
     ext.isEmpty || exts.any fun pe => equalFoldCharsAscii ext pe.toList)

/-- main.go `RouteIsProtectedPrefix`: the first candidate that passes wins;
a candidate that fails (by exclusion or by extension) continues with the
remaining candidates. -/
def RouteIsProtectedPrefixMode (protectRoutes excludeRoutes exts : List String)
    (path : String) : Bool :=
  protectRoutes.any (candidateProtectedPrefixMode excludeRoutes exts path)

/-- C6: with protectRoutes ["/shop"], excludeRoutes ["/shop/api"] and
protected extension list containing exactly "html": "/shop/cart" is
protected (no extension), "/shop/api/cart" is not (excluded),
"/shop/logo.png" is not (extension not listed), "/shop/index.html" is
protected; and an exclusion match only skips that protect-route candidate,
after which evaluation continues with the remaining candidates. -/
theorem claim_C6_route_matching :
    RouteIsProtectedPrefixMode ["/shop"] ["/shop/api"] ["html"] "/shop/cart" = true ∧
    RouteIsProtectedPrefixMode ["/shop"] ["/shop/api"] ["html"] "/shop/api/cart" = false ∧
    RouteIsProtectedPrefixMode ["/shop"] ["/shop/api"] ["html"] "/shop/logo.png" = false ∧
    RouteIsProtectedPrefixMode ["/shop"] ["/shop/api"] ["html"] "/shop/index.html" = true ∧
    (∀ (r : String) (pr ex exts : List String) (path : String),
      RouteIsProtectedPrefixMode (r :: pr) ex exts path =
        (candidateProtectedPrefixMode ex exts path r ||
          RouteIsProtectedPrefixMode pr ex exts path)) := by
  refine ⟨by decide, by decide, by decide, by decide, ?_⟩
  intro r pr ex exts path
  simp [RouteIsProtectedPrefixMode]

/-! ## Good-bot classification (main.go: isGoodBot) -/

/-- main.go `isGoodBot`.  helper.IsIpGoodBot lives in the helper package
(internal/helper), which is not under src/; per the spec it checks the
request's resolved identity against the configured allow-list, and it is
abstracted here as the oracle `ipGoodBot`.  When protectParameters is
"true" and the request URL carries at least one query parameter, the
function returns false before touching the bot cache; otherwise a memoized
verdict is returned, or the freshly computed verdict is memoized with the
default TTL. -/
def isGoodBot (protectParameters : String) (query : List (String × String))
    (botCache : Cache Bool) (clientIP : String) (ipGoodBot : String → Bool)
    (window now : Nat) : Bool × Cache Bool :=
  if protectParameters = "true" ∧ query ≠ [] then (false, botCache)
  else
    match cacheGet botCache clientIP now with
    | some b => (b, botCache)
    | none =>
      let v := ipGoodBot clientIP
      (v, cacheSet botCache clientIP v window now)

/-- C9: when protectParameters is enabled and the request URL carries at
least one query parameter, `isGoodBot` returns false and leaves the bot
cache untouched, whatever the cache holds (in particular even when the
subnet is memoized as a good bot) and whatever the allow-list says. -/
theorem claim_C9_protect_parameters (protectParameters : String)
    (query : List (String × String)) (botCache : Cache Bool) (clientIP : String)
    (ipGoodBot : String → Bool) (window now : Nat)
    (hp : protectParameters = "true") (hq : query ≠ []) :
    isGoodBot protectParameters query botCache clientIP ipGoodBot window now =
      (false, botCache) := by
  simp [isGoodBot, hp, hq]

/-- C9 witness: a subnet memoized as a good bot is still refused when the
request carries a query parameter. -/
theorem claim_C9_protect_parameters_witness :
    isGoodBot "true" [("page", "2")]
        (fun k => if k = "66.249.0.0" then some (true, 0) else none) "66.249.0.0"
        (fun _ => true) 86400 10 =
      (false, fun k => if k = "66.249.0.0" then some (true, 0) else none) :=
  claim_C9_protect_parameters "true" [("page", "2")]
    (fun k => if k = "66.249.0.0" then some (true, 0) else none) "66.249.0.0"
    (fun _ => true) 86400 10 rfl (by simp)

/-! ## Cooperative file lock (internal/filelock/filelock.go)

The marker file is modelled by `Option Nat`: `none` when absent, `some m`
when present with last-modified instant `m`; the clock counts
milliseconds.  The model is a single acquirer on a deterministic
filesystem: exclusive creation succeeds exactly when the marker is absent,
and removal succeeds (`Lock` falls back to sleeping when a racing removal
fails, which cannot happen here; the immediate fatal error for a creation
failure other than already-exists also cannot arise, but its result
constructor is kept for distinctness). -/

/-- Result of filelock `Lock`. -/
inductive LockResult where
  | acquired
  | createFailed
  | timeout
deriving DecidableEq

/-- filelock.go `isStale`: a marker that cannot be stat-ed counts as stale;
otherwise stale iff its last-modified time lies more than five minutes
(300000 ms) in the past. -/
def isStale (fs : Option Nat) (now : Nat) : Bool :=
  match fs with
  | none => true
  | some m => decide (300000 < now - m)

/-- The retry loop of filelock.go `Lock`: each attempt either creates the
marker exclusively (acquiring, marker modified now), removes a stale
marker and continues into the next attempt at the same instant (no sleep),
or sleeps 100 ms before the next attempt; 300 attempts of 100 ms make the
30-second budget, after which the distinct timeout error is returned.
State: remaining attempts, marker file, clock.  Returns the result, the
final marker state and the final clock. -/
def lockLoop : Nat → Option Nat → Nat → LockResult × Option Nat × Nat
  | 0, fs, now => (.timeout, fs, now)
  | _ + 1, none, now => (.acquired, some now, now)
  | fuel + 1, some m, now =>
    if isStale (some m) now then lockLoop fuel none now
    else lockLoop fuel (some m) (now + 100)

/-- filelock.go `Lock` on a not-yet-acquired lock: 300 attempts. -/
def lock (fs : Option Nat) (now : Nat) : LockResult × Option Nat × Nat :=
  lockLoop 300 fs now

/-- A stale marker is removed and the lock acquired in the same attempt
cycle, without sleeping. -/
theorem lockLoop_stale (fuel m now : Nat) (h : 300000 < now - m) :
    lockLoop (fuel + 1 + 1) (some m) now = (.acquired, some now, now) := by
  have hst : isStale (some m) now = true := by
    simp only [isStale, decide_eq_true_eq]
    omega
  rw [show lockLoop (fuel + 1 + 1) (some m) now =
        if isStale (some m) now then lockLoop (fuel + 1) none now
        else lockLoop (fuel + 1) (some m) (now + 100) from rfl, hst]
  rfl

/-- A marker that stays fresh through every attempt is never removed: each
attempt sleeps 100 ms, and the budget runs out in a timeout. -/
theorem lockLoop_fresh (m : Nat) :
    ∀ (fuel now : Nat), now + 100 * fuel ≤ m + 300100 →
      lockLoop fuel (some m) now = (.timeout, some m, now + 100 * fuel) := by
  intro fuel
  induction fuel with
  | zero => intro now _; simp [lockLoop]
  | succ n ih =>
    intro now h
    have hst : isStale (some m) now = false := by
      simp only [isStale, decide_eq_false_iff_not, not_lt]
      omega
    rw [show lockLoop (n + 1) (some m) now =
          if isStale (some m) now then lockLoop n none now
          else lockLoop n (some m) (now + 100) from rfl, hst]
    simp only [Bool.false_eq_true, if_false]
    rw [ih (now + 100) (by omega), show now + 100 + 100 * n = now + 100 * (n + 1) by ring]

/-- C7: on a failed acquisition attempt, a marker whose last-modified time
is more than 5 minutes old is deleted and the acquisition retried
immediately in the same attempt cycle with no sleep (the clock does not
advance); a marker younger than 5 minutes is never deleted: the acquirer
sleeps 100 ms per attempt until the 30-second budget is exhausted (so
while the marker stays fresh through all 300 attempts, `Lock` leaves it in
place and ends at instant `now + 30000`), and then returns the timeout
result, which is distinct from acquisition and from the immediate creation
failures. -/
theorem claim_C7_lock_staleness (m now : Nat) :
    (300000 < now - m → lock (some m) now = (.acquired, some now, now)) ∧
    (now + 30000 ≤ m + 300100 → lock (some m) now = (.timeout, some m, now + 30000)) ∧
    LockResult.timeout ≠ LockResult.acquired ∧
    LockResult.timeout ≠ LockResult.createFailed := by
  refine ⟨?_, ?_, by decide, by decide⟩
  · intro h
    exact lockLoop_stale 298 m now h
  · intro h
    have := lockLoop_fresh m 300 now (by omega)
    simpa using this

/-- C7 witness: a 400-second-old marker is stolen at once with no sleep; a
marker 100 ms old leads to 300 sleeps and the timeout error. -/
theorem claim_C7_lock_staleness_witness :
    lock (some 0) 400000 = (.acquired, some 400000, 400000) ∧
    lock (some 0) 100 = (.timeout, some 0, 30100) :=
  ⟨(claim_C7_lock_staleness 0 400000).1 (by norm_num),
   (claim_C7_lock_staleness 0 100).2.1 (by norm_num)⟩

/-- Result of os.Remove as distinguished by the Unlock path: success, an
error satisfying os.IsNotExist (ignored), or any other error (surfaced). -/
inductive RemoveResult where
  | removed
  | notExist
  | otherError
deriving DecidableEq

/-- os.Remove over the marker-file state: an absent file yields IsNotExist;
an existing file is removed unless the environment injects a failure
(for instance a permission error), controlled by `removeFails`. -/
def osRemove (fs : Option Nat) (removeFails : Bool) : RemoveResult × Option Nat :=
  match fs with
  | none => (.notExist, none)
  | some t => if removeFails then (.otherError, some t) else (.removed, none)

/-- filelock.go `Unlock`: a no-op returning nil when the lock was never
acquired (nothing to unlock); otherwise removes the marker, treats
IsNotExist as success, and surfaces any other removal error without
clearing the acquired flag.  Returns (error, acquired flag after, marker
state after). -/
def unlock (acquired : Bool) (fs : Option Nat) (removeFails : Bool) :
    Except String Unit × Bool × Option Nat :=
  if acquired then
    match osRemove fs removeFails with
    | (.otherError, fs2) => (.error "failed to remove lock file", acquired, fs2)
    | (_, fs2) => (.ok (), false, fs2)
  else (.ok (), acquired, fs)

/-- C8 counterexample: when removing the marker fails with an error other
than not-exist (for instance a permission error), `Unlock` returns before
clearing the acquired flag, so the flag is not false after every `Unlock`
call. -/
theorem claim_C8_counterexample :
    ¬ ((unlock true (some 0) true).2.1 = false) := by
  decide

/-- C8 amended: `Unlock` on a lock never acquired (equally: called again
after a successful unlock, which leaves the flag false) performs no
filesystem mutation and returns no error; after any `Unlock` call that
returns no error the acquired flag is false; calling it right after a
successful unlock is again a no-op; but a removal failure other than
not-exist makes `Unlock` return an error and leave the flag true. -/
theorem claim_C8_unlock_idempotent (fs : Option Nat) (removeFails rf2 : Bool) :
    unlock false fs removeFails = (.ok (), false, fs) ∧
    (∀ (acq : Bool) (fs2 : Option Nat),
      (unlock acq fs2 removeFails).1 = .ok () → (unlock acq fs2 removeFails).2.1 = false) ∧
    (unlock (unlock true fs false).2.1 (unlock true fs false).2.2 rf2 =
      (.ok (), false, (unlock true fs false).2.2)) ∧
    (∀ t, fs = some t →
      unlock true fs true = (.error "failed to remove lock file", true, some t)) := by
  refine ⟨?_, ?_, ?_, ?_⟩
  · simp [unlock]
  · intro acq fs2 hok
    cases acq
    · simp [unlock]
    · cases fs2 <;> cases removeFails <;> simp [unlock, osRemove] at hok ⊢
  · cases fs <;> simp [unlock, osRemove]
  · intro t ht
    subst ht
    simp [unlock, osRemove]

/-- C8 witness: unlocking a never-acquired lock leaves everything in
place with no error, and a second unlock after a successful one is a
no-op. -/
theorem claim_C8_unlock_idempotent_witness :
    unlock false (some 5) true = (.ok (), false, some 5) ∧
    unlock (unlock true (some 5) false).2.1 (unlock true (some 5) false).2.2 false =
      (.ok (), false, (unlock true (some 5) false).2.2) :=
  ⟨(claim_C8_unlock_idempotent (some 5) true false).1,
   (claim_C8_unlock_idempotent (some 5) false false).2.2.1⟩

end CaptchaProtect
